import Mathlib

/-!
# bunovel: error translation, option compilation and migration sequencing

A shallow embedding of the Go package `bunovel` (files `errors.go`,
`init_config.go`, `init_config_methods.go`) and the properties its
specification states about it.

Part 1 models Go error values and the library calls `HandlePGError` relies on
(`errors.Is`, `errors.Join`, `fmt.Errorf`, `strings.Contains`, the methods of
`pgdriver.Error`), then `HandlePGError` itself.
-/

namespace Bunovel

/-! ## Go error values -/

/-- Values of Go's `error` interface, by dynamic type.  Pointer types carry the
address of the value they point to: Go compares two such errors by address.

* `nil`: the nil interface value;
* `errorString`: `*errors.errorString`, what `errors.New` and a `fmt.Errorf`
  without `%w` return;
* `wrapError`: `*fmt.wrapError`, what `fmt.Errorf` with one `%w` returns;
* `joinError`: `*errors.joinError`, what `errors.Join` returns;
* `pgdriverError`: a `pgdriver.Error` value, `struct { m map[byte]string }`,
  the fields of a PostgreSQL ErrorResponse keyed by their one-byte tag;
* `foreign`: an error of any other (pointer) type, without `Is` or `Unwrap`
  methods. -/
inductive GoError where
  | nil
  | errorString (addr : Nat) (s : String)
  | wrapError (addr : Nat) (msg : String) (err : GoError)
  | joinError (addr : Nat) (errs : List GoError)
  | pgdriverError (m : List (Char × String))
  | foreign (typ : String) (addr : Nat) (msg : String)

namespace GoError

/-- The test `err == nil`. -/
def isNil : GoError → Bool
  | .nil => true
  | _ => false

/-- Go's `a == b` on two `error` interface values: `some` of the outcome, or
`none` where Go panics at run time (both values have the same dynamic type and
that type is not comparable, as for a struct holding a map).  Values of
different dynamic types are unequal; pointers are equal when their addresses
are. -/
def ifaceEq : GoError → GoError → Option Bool
  | .nil, .nil => some true
  | .errorString a _, .errorString b _ => some (a == b)
  | .wrapError a _ _, .wrapError b _ _ => some (a == b)
  | .joinError a _, .joinError b _ => some (a == b)
  | .pgdriverError _, .pgdriverError _ => none
  | .foreign t a _, .foreign u b _ => some (t == u && a == b)
  | _, _ => some false

/-- Go's `reflectlite.TypeOf(err).Comparable()`: every pointer type is
comparable, `pgdriver.Error` (a struct with a map field) is not. -/
def comparable : GoError → Bool
  | .pgdriverError _ => false
  | _ => true

end GoError

/-! ## `strings.Contains` and `pgdriver.Error` -/

/-- Go's `strings.Contains(s, substr)`: `substr` occurs in `s` as a contiguous
block. -/
def stringsContains (s substr : String) : Bool :=
  decide (substr.data <:+: s.data)

/-- The method `pgdriver.Error.Field`: `err.m[k]`, the empty string for a
missing key. -/
def pgField (m : List (Char × String)) (k : Char) : String :=
  (m.lookup k).getD ""

/-- The method `pgdriver.Error.IntegrityViolation`: the SQLSTATE code (field
`C`) is one of class 23. -/
def IntegrityViolation (m : List (Char × String)) : Bool :=
  pgField m 'C' ∈ ["23000", "23001", "23502", "23503", "23505", "23514", "23P01"]

/-- The method `pgdriver.Error.StatementTimeout`: the SQLSTATE code is 57014. -/
def StatementTimeout (m : List (Char × String)) : Bool :=
  pgField m 'C' == "57014"

/-- The method `pgdriver.Error.Error`:
`fmt.Sprintf("%s: %s (SQLSTATE=%s)", Field('S'), Field('M'), Field('C'))`. -/
def pgErrorText (m : List (Char × String)) : String :=
  pgField m 'S' ++ ": " ++ pgField m 'M' ++ " (SQLSTATE=" ++ pgField m 'C' ++ ")"

/-! ## `Error()`, `fmt.Errorf`, `errors.Join`, `errors.Is`, `errors.As` -/

mutual
/-- The method `Error()` of each dynamic type.  Go panics on the nil
interface; the text given for it here is never used by the code below. -/
def GoError.Error : GoError → String
  | .nil => "<nil>"
  | .errorString _ s => s
  | .wrapError _ msg _ => msg
  | .joinError _ errs => GoError.joinText errs
  | .pgdriverError m => pgErrorText m
  | .foreign _ _ msg => msg
/-- The text of a `*errors.joinError`: the texts of its parts, one per line. -/
def GoError.joinText : List GoError → String
  | [] => ""
  | [e] => e.Error
  | e :: es => e.Error ++ "\n" ++ GoError.joinText es
end

/-- The call `errors.New(text)`, allocating at `addr`. -/
def errorsNew (addr : Nat) (text : String) : GoError :=
  .errorString addr text

/-- The call `fmt.Errorf(pre + "%w" + post, err)` for a non-nil `err`,
allocating at `addr`: a `*fmt.wrapError` holding the formatted text and
`err`. -/
def fmtErrorfW (addr : Nat) (pre : String) (err : GoError) (post : String) : GoError :=
  .wrapError addr (pre ++ err.Error ++ post) err

/-- The call `errors.Join(errs...)`, allocating at `addr`: nil values are
dropped, and the result is nil when nothing is left. -/
def errorsJoin (addr : Nat) (errs : List GoError) : GoError :=
  match errs.filter (fun e => !e.isNil) with
  | [] => .nil
  | es => .joinError addr es

mutual
/-- The loop `is(err, target, targetComparable)` behind `errors.Is`: compare
when the target is comparable, then descend through `Unwrap() error` (stopping
at nil) or through every element of `Unwrap() []error`.  None of the modelled
types has an `Is` method. -/
def errorsIsLoop (target : GoError) (targetComparable : Bool) : GoError → Bool
  | .wrapError a msg inner =>
    (targetComparable && GoError.ifaceEq (.wrapError a msg inner) target == some true)
      || (!inner.isNil && errorsIsLoop target targetComparable inner)
  | .joinError a errs =>
    (targetComparable && GoError.ifaceEq (.joinError a errs) target == some true)
      || errorsIsAny target targetComparable errs
  | .nil => targetComparable && GoError.ifaceEq .nil target == some true
  | .errorString a s =>
    targetComparable && GoError.ifaceEq (.errorString a s) target == some true
  | .pgdriverError m =>
    targetComparable && GoError.ifaceEq (.pgdriverError m) target == some true
  | .foreign t a s =>
    targetComparable && GoError.ifaceEq (.foreign t a s) target == some true
/-- The `for _, err := range x.Unwrap()` branch of `is`. -/
def errorsIsAny (target : GoError) (targetComparable : Bool) : List GoError → Bool
  | [] => false
  | e :: es => errorsIsLoop target targetComparable e || errorsIsAny target targetComparable es
end

/-- Go's `errors.Is(err, target)`. -/
def errorsIs (err target : GoError) : Bool :=
  if err.isNil || target.isNil then err.isNil && target.isNil
  else errorsIsLoop target target.comparable err

mutual
/-- Go's `errors.As(err, &target)` for a target of type `pgdriver.Error`: the
first error of that dynamic type met while unwrapping, if any. -/
def errorsAsPG : GoError → Option (List (Char × String))
  | .pgdriverError m => some m
  | .wrapError _ _ inner => errorsAsPG inner
  | .joinError _ errs => errorsAsPGAny errs
  | _ => none
/-- The `Unwrap() []error` branch of `errors.As`. -/
def errorsAsPGAny : List GoError → Option (List (Char × String))
  | [] => none
  | e :: es => (errorsAsPG e).orElse (fun _ => errorsAsPGAny es)
end

/-! ## `errors.go` -/

/-- The variable `sql.ErrNoRows` of `database/sql`:
`errors.New("sql: no rows in result set")`. -/
def sqlErrNoRows : GoError := errorsNew 1 "sql: no rows in result set"

def ErrResetOnConnOutsideTests : GoError :=
  errorsNew 2 "ResetOnConn flag is only available under test environments, please make sure ENV=test is set before using it (this feature is not safe for production)"

def ErrConstraintViolation : GoError :=
  errorsNew 3 "record does not satisfy some of the column constraints"

def ErrUniqConstraintViolation : GoError :=
  fmtErrorfW 4 "" ErrConstraintViolation ": some unique columns have duplicates"

def ErrNotFound : GoError :=
  errorsNew 5 "could not find any record matching the request"

def ErrTimeout : GoError := errorsNew 6 "connection timed out"

/-- The function `HandlePGError`.  `joinAddr` is the address at which
`errors.Join` allocates its result. -/
def HandlePGError (joinAddr : Nat) (err : GoError) : GoError :=
  if GoError.ifaceEq err .nil = some true then .nil
  else if GoError.ifaceEq err sqlErrNoRows = some true then ErrNotFound
  else
    match err with
    | .pgdriverError m =>
      if IntegrityViolation m then
        if stringsContains err.Error "SQLSTATE=23505" then ErrUniqConstraintViolation
        else ErrConstraintViolation
      else if StatementTimeout m then errorsJoin joinAddr [ErrTimeout, err]
      else err
    | _ => err

/-! ## `init_config.go`: the data model

Part 2 models the configuration records, the world outside the package (the
driver, the process environment and bun's `migrate` package, kept abstract as
a record of operations on a state `σ`), and the functions of
`init_config_methods.go` and `init_config.go` as state-passing functions. -/

/-- A `bun.DBOption` value: the one `bun.WithDiscardUnknownColumns()` returns,
or any other option, told apart by `id`. -/
inductive DBOption where
  | WithDiscardUnknownColumns
  | other (id : Nat)
  deriving DecidableEq, Repr

/-- A `migrate.Migration` record, as far as this package looks at it. -/
structure Migration where
  Name : String
  GroupID : Int
  deriving DecidableEq, Repr

/-- The struct `migrate.MigrationGroup`. -/
structure MigrationGroup where
  ID : Int
  Migrations : List Migration
  deriving DecidableEq, Repr

/-- An `fs.FS` value, told apart by a number. -/
abbrev FS := Nat

/-- A `migrate.MigrationOption` value, told apart by a number. -/
abbrev MigrationOption := Nat

/-- A non-nil `*bun.DB`, told apart by a number; `Option DB` is the pointer. -/
abbrev DB := Nat

/-- A non-nil `*sql.DB`, told apart by a number; `Option SQLDB` is the
pointer. -/
abbrev SQLDB := Nat

/-- The struct `GoMigration`: two `migrate.MigrationFunc` values, told apart by
numbers. -/
structure GoMigration where
  Up : Nat
  Down : Nat
  deriving DecidableEq, Repr

/-- The struct `MigrateConfig`; the pointer field `migrations` is `none` when
nil. -/
structure MigrateConfig where
  Files : List FS
  Go : List GoMigration
  migrations : Option MigrationGroup
  deriving DecidableEq, Repr

/-- The interface `DriverConfig`, over the outside state `σ`. -/
structure DriverConfig (σ : Type) where
  Connect : List DBOption → σ → (Option DB × Option SQLDB × GoError) × σ

/-- The struct `Config`.  `Driver` is `none` for a nil interface value and
`Migrations` is `none` for a nil pointer. -/
structure Config (σ : Type) where
  Driver : Option (DriverConfig σ)
  Migrations : Option MigrateConfig
  DiscardUnknownColumns : Bool
  ResetOnConn : Bool
  Options : List DBOption

/-- The calls this package makes outside itself, besides the driver's
`Connect`: `os.Getenv`, the `Close` methods of the two handles, and bun's
`migrate` package.  The registry `migrate.NewMigrations()` creates and the
migrator `migrate.NewMigrator` builds from it live in the state `σ`; a result
pair is the Go call's return values. -/
structure Library (σ : Type) where
  Getenv : String → σ → String
  CloseDB : DB → σ → σ
  CloseSQL : SQLDB → σ → σ
  NewMigrations : σ → σ
  Discover : FS → σ → GoError × σ
  Register : GoMigration → σ → GoError × σ
  NewMigrator : Option DB → σ → σ
  Init : σ → GoError × σ
  Migrate : σ → (Option MigrationGroup × GoError) × σ
  Rollback : List MigrationOption → σ → (Option MigrationGroup × GoError) × σ

/-- One call made outside the package, as recorded in `World.calls`. -/
inductive Call where
  | Connect (options : List DBOption)
  | Getenv (key : String)
  | CloseDB (db : DB)
  | CloseSQL (db : SQLDB)
  | NewMigrations
  | Discover (fsys : FS)
  | Register (migration : GoMigration)
  | NewMigrator (db : Option DB)
  | Init
  | Migrate
  | Rollback (opts : List MigrationOption)
  deriving DecidableEq, Repr

/-- The state a function of the package runs in: the outside state, the calls
made outside so far (oldest first), and the next free heap address (used by
`fmt.Errorf`). -/
structure World (σ : Type) where
  lib : σ
  calls : List Call
  nextAddr : Nat

/-- How a run of a function ends: it returns, it panics on a nil pointer
dereference, or the step bound given to the model was used up. -/
inductive Run (α : Type) where
  | done (a : α)
  | nilPanic
  | outOfSteps
  deriving Repr

/-- Sequencing of runs. -/
def Run.bind {α β : Type} (r : Run α) (f : α → Run β) : Run β :=
  match r with
  | .done a => f a
  | .nilPanic => .nilPanic
  | .outOfSteps => .outOfSteps

/-- An outside call that only changes the state. -/
def World.step {σ : Type} (w : World σ) (c : Call) (f : σ → σ) : World σ :=
  { w with lib := f w.lib, calls := w.calls ++ [c] }

/-- An outside call that returns a value. -/
def World.call {σ α : Type} (w : World σ) (c : Call) (f : σ → α × σ) : α × World σ :=
  ((f w.lib).1, { w with lib := (f w.lib).2, calls := w.calls ++ [c] })

/-- The call `fmt.Errorf(pre + "%w", err)` run in a world: it allocates. -/
def World.errorf {σ : Type} (w : World σ) (pre : String) (err : GoError) : GoError × World σ :=
  (fmtErrorfW w.nextAddr pre err "", { w with nextAddr := w.nextAddr + 1 })

/-! ## `init_config_methods.go` -/

/-- The method `Config.compileOptions`. -/
def Config.compileOptions {σ : Type} (config : Config σ) : List DBOption :=
  let options := config.Options
  if config.DiscardUnknownColumns then
    options ++ [DBOption.WithDiscardUnknownColumns]
  else
    options

/-- The first loop of `compileMigrations`, from index `i` on. -/
def discoverAll {σ : Type} (L : Library σ) : Nat → List FS → World σ → GoError × World σ
  | _, [], w => (.nil, w)
  | i, migration :: rest, w =>
    let r := w.call (.Discover migration) (L.Discover migration)
    if !r.1.isNil then
      r.2.errorf ("failed to discover filesystem migrations at index " ++ toString i ++ ": ") r.1
    else
      discoverAll L (i + 1) rest r.2

/-- The second loop of `compileMigrations`, from index `i` on. -/
def registerAll {σ : Type} (L : Library σ) : Nat → List GoMigration → World σ → GoError × World σ
  | _, [], w => (.nil, w)
  | i, migration :: rest, w =>
    let r := w.call (.Register migration) (L.Register migration)
    if !r.1.isNil then
      r.2.errorf ("failed to register go migration at index " ++ toString i ++ ": ") r.1
    else
      registerAll L (i + 1) rest r.2

/-- The method `MigrateConfig.compileMigrations` on the receiver `config` (a
pointer, `none` when nil).  The registry it returns lives in the outside
state, so only the error is returned; reading `config.Files` through a nil
receiver panics. -/
def compileMigrations {σ : Type} (L : Library σ) (config : Option MigrateConfig)
    (w : World σ) : Run (GoError × World σ) :=
  let w := w.step .NewMigrations L.NewMigrations
  match config with
  | none => .nilPanic
  | some c =>
    let r := discoverAll L 0 c.Files w
    if !r.1.isNil then .done r
    else .done (registerAll L 0 c.Go r.2)

/-- The assignment `config.migrations = group` through the receiver. -/
def setMigrations (config : Option MigrateConfig) (group : Option MigrationGroup) :
    Run (Option MigrateConfig) :=
  match config with
  | none => .nilPanic
  | some c => .done (some { c with migrations := group })

/-- The method `MigrateConfig.Execute`: the error it returns, the receiver
afterwards, and the world afterwards. -/
def Execute {σ : Type} (L : Library σ) (config : Option MigrateConfig) (db : Option DB)
    (w : World σ) : Run (GoError × Option MigrateConfig × World σ) :=
  (compileMigrations L config w).bind fun r =>
    if !r.1.isNil then .done (r.1, config, r.2)
    else
      let w := r.2.step (.NewMigrator db) (L.NewMigrator db)
      let i := w.call .Init L.Init
      if !i.1.isNil then
        let e := i.2.errorf "failed to create migrator: " i.1
        .done (e.1, config, e.2)
      else
        let m := i.2.call .Migrate L.Migrate
        if !m.1.2.isNil then
          let e := m.2.errorf "failed to run migrations: " m.1.2
          .done (e.1, config, e.2)
        else
          (setMigrations config m.1.1).bind fun config => .done (.nil, config, m.2)

/-- The method `MigrateConfig.Rollback`. -/
def Rollback {σ : Type} (L : Library σ) (config : Option MigrateConfig) (db : Option DB)
    (opts : List MigrationOption) (w : World σ) :
    Run (GoError × Option MigrateConfig × World σ) :=
  (compileMigrations L config w).bind fun r =>
    if !r.1.isNil then .done (r.1, config, r.2)
    else
      let w := r.2.step (.NewMigrator db) (L.NewMigrator db)
      let i := w.call .Init L.Init
      if !i.1.isNil then
        let e := i.2.errorf "failed to create migrator: " i.1
        .done (e.1, config, e.2)
      else
        let g := i.2.call (.Rollback opts) (L.Rollback opts)
        if !g.1.2.isNil then
          let e := g.2.errorf "failed to rollback migrations: " g.1.2
          .done (e.1, config, e.2)
        else
          (setMigrations config g.1.1).bind fun config => .done (.nil, config, g.2)

/-- The loop `for len(group.Migrations) > 0 && err == nil` of `RollbackAll`,
entered with the current `group` and `err` and run for at most `steps`
iterations.  Reading `group.Migrations` through a nil `group` panics. -/
def rollbackLoop {σ : Type} (L : Library σ) (opts : List MigrationOption) :
    Nat → Option MigrationGroup → GoError → World σ →
      Run (Option MigrationGroup × GoError × World σ)
  | _, none, _, _ => .nilPanic
  | 0, some group, err, w =>
    if group.Migrations.length > 0 && err.isNil then .outOfSteps
    else .done (some group, err, w)
  | steps + 1, some group, err, w =>
    if group.Migrations.length > 0 && err.isNil then
      let g := w.call (.Rollback opts) (L.Rollback opts)
      rollbackLoop L opts steps g.1.1 g.1.2 g.2
    else .done (some group, err, w)

/-- The method `MigrateConfig.RollbackAll`, its loop bounded by `steps`. -/
def RollbackAll {σ : Type} (L : Library σ) (steps : Nat) (config : Option MigrateConfig)
    (db : Option DB) (opts : List MigrationOption) (w : World σ) :
    Run (GoError × Option MigrateConfig × World σ) :=
  (compileMigrations L config w).bind fun r =>
    if !r.1.isNil then .done (r.1, config, r.2)
    else
      let w := r.2.step (.NewMigrator db) (L.NewMigrator db)
      let i := w.call .Init L.Init
      if !i.1.isNil then
        let e := i.2.errorf "failed to create migrator: " i.1
        .done (e.1, config, e.2)
      else
        let g := i.2.call (.Rollback opts) (L.Rollback opts)
        (rollbackLoop L opts steps g.1.1 g.1.2 g.2).bind fun l =>
          if !l.2.1.isNil then
            let e := l.2.2.errorf "failed to rollback migrations: " l.2.1
            .done (e.1, config, e.2)
          else
            (setMigrations config l.1).bind fun config => .done (.nil, config, l.2.2)

/-- The method `MigrateConfig.Report`. -/
def Report (config : MigrateConfig) : Option MigrationGroup :=
  config.migrations

/-! ## `init_config.go` -/

/-- The two statements `_ = database.Close()` and `_ = sqlDB.Close()`; calling
`Close` through a nil handle panics. -/
def closeBoth {σ : Type} (L : Library σ) (database : Option DB) (sqlDB : Option SQLDB)
    (w : World σ) : Run (World σ) :=
  match database with
  | none => .nilPanic
  | some d =>
    let w := w.step (.CloseDB d) (L.CloseDB d)
    match sqlDB with
    | none => .nilPanic
    | some q => .done (w.step (.CloseSQL q) (L.CloseSQL q))

/-- The last part of `NewClient`, from the comment `Apply migrations.` on. -/
def applyMigrations {σ : Type} (L : Library σ) (migrations : Option MigrateConfig)
    (database : Option DB) (sqlDB : Option SQLDB) (w : World σ) :
    Run ((Option DB × Option SQLDB × GoError) × Option MigrateConfig × World σ) :=
  match migrations with
  | none => .done ((database, sqlDB, .nil), migrations, w)
  | some c =>
    if c.Files.length > 0 || c.Go.length > 0 then
      (Execute L migrations database w).bind fun x =>
        if !x.1.isNil then
          (closeBoth L database sqlDB x.2.2).bind fun w =>
            .done ((none, none, x.1), x.2.1, w)
        else .done ((database, sqlDB, .nil), x.2.1, x.2.2)
    else .done ((database, sqlDB, .nil), migrations, w)

/-- The function `NewClient`, the loop of `RollbackAll` bounded by `steps`: the
three values it returns, what `config.Migrations` points to afterwards, and the
world afterwards.  Calling `Connect` through a nil `Driver` panics. -/
def NewClient {σ : Type} (L : Library σ) (steps : Nat) (config : Config σ) (w : World σ) :
    Run ((Option DB × Option SQLDB × GoError) × Option MigrateConfig × World σ) :=
  match config.Driver with
  | none => .nilPanic
  | some driver =>
    let c := w.call (.Connect config.compileOptions) (driver.Connect config.compileOptions)
    let database := c.1.1
    let sqlDB := c.1.2.1
    let err := c.1.2.2
    if !err.isNil then
      let e := c.2.errorf "failed to connect the database client: " err
      .done ((none, none, e.1), config.Migrations, e.2)
    else if config.ResetOnConn then
      let env := c.2.call (.Getenv "ENV") (fun s => (L.Getenv "ENV" s, s))
      if env.1 != "test" then
        (closeBoth L database sqlDB env.2).bind fun w =>
          .done ((none, none, ErrResetOnConnOutsideTests), config.Migrations, w)
      else
        (RollbackAll L steps config.Migrations database [] env.2).bind fun r =>
          if !r.1.isNil then
            (closeBoth L database sqlDB r.2.2).bind fun w =>
              let e := w.errorf "failed to reset the database: " r.1
              .done ((none, none, e.1), r.2.1, e.2)
          else applyMigrations L r.2.1 database sqlDB r.2.2
    else applyMigrations L config.Migrations database sqlDB c.2

/-! ## A stand-in for the outside world

An in-memory library and driver on which the functions above can be run: the
database is the list of applied migration groups, `Migrate` plays back scripted
results, and `Rollback` takes the last applied group away. -/

/-- The state of the stand-in: the process environment, the applied groups
(last applied first), the results the next `Migrate` calls give, and the
handles closed so far. -/
structure SimState where
  env : List (String × String)
  applied : List MigrationGroup
  migrateResults : List (Option MigrationGroup × GoError)
  closed : List Nat

/-- The stand-in library. -/
def simLibrary : Library SimState where
  Getenv k s := (s.env.lookup k).getD ""
  CloseDB d s := { s with closed := s.closed ++ [d] }
  CloseSQL q s := { s with closed := s.closed ++ [q] }
  NewMigrations s := s
  Discover _ s := (.nil, s)
  Register _ s := (.nil, s)
  NewMigrator _ s := s
  Init s := (.nil, s)
  Migrate s :=
    match s.migrateResults with
    | [] => ((some ⟨0, []⟩, .nil), s)
    | (some g, e) :: rest => ((some g, e), { s with migrateResults := rest, applied := g :: s.applied })
    | (none, e) :: rest => ((none, e), { s with migrateResults := rest })
  Rollback _ s :=
    match s.applied with
    | [] => ((some ⟨0, []⟩, .nil), s)
    | g :: rest => ((some g, .nil), { s with applied := rest })

/-- The stand-in driver: it always connects, with handles 1 and 2. -/
def simDriver : DriverConfig SimState where
  Connect _ s := ((some 1, some 2, .nil), s)

/-- A world of the stand-in with the given `ENV` value and applied groups. -/
def simWorld (envValue : String) (applied : List MigrationGroup)
    (migrateResults : List (Option MigrationGroup × GoError)) : World SimState :=
  { lib := { env := [("ENV", envValue)], applied := applied,
             migrateResults := migrateResults, closed := [] },
    calls := [], nextAddr := 100 }

/-- A migration group holding one migration. -/
def sampleGroup (id : Int) (name : String) : MigrationGroup :=
  ⟨id, [⟨name, id⟩]⟩

/-- A `pgdriver.Error` whose code is 23514 (check violation) and whose message
holds the text `SQLSTATE=23505`, as a trigger raising with a custom message
and error code produces. -/
def checkViolationMentioningUnique : List (Char × String) :=
  [('S', "ERROR"), ('C', "23514"), ('M', "expected SQLSTATE=23505 from the upsert")]

/-- A `pgdriver.Error` reporting a statement timeout. -/
def timeoutFields : List (Char × String) :=
  [('S', "ERROR"), ('C', "57014"), ('M', "canceling statement due to statement timeout")]

/-- A configuration with one explicit option and `DiscardUnknownColumns` set. -/
def discardWithExplicit : Config SimState :=
  { Driver := some simDriver, Migrations := none, DiscardUnknownColumns := true,
    ResetOnConn := false, Options := [.other 7] }

/-- Whether a call goes to bun's `migrate` package. -/
def Call.isMigrate : Call → Bool
  | .NewMigrations | .Discover _ | .Register _ | .NewMigrator _ | .Init | .Migrate
  | .Rollback _ => true
  | _ => false

/-- What a run returned, if it returned. -/
def Run.returned {α : Type} : Run α → Option α
  | .done a => some a
  | _ => none

/-- What is left to read of a run of `Execute`, `Rollback` or `RollbackAll`:
whether the error returned is nil, and what `Report` gives on the receiver
afterwards. -/
def outcome {σ : Type} (r : Run (GoError × Option MigrateConfig × World σ)) :
    Option (Bool × Option (Option MigrationGroup)) :=
  r.returned.map fun x => (x.1.isNil, x.2.1.map Report)

/-- A configuration without migrations that asks for a reset on connection. -/
def resetWithoutMigrations : Config SimState :=
  { Driver := some simDriver, Migrations := none, DiscardUnknownColumns := false,
    ResetOnConn := true, Options := [] }

/-- A migration configuration with one migration file system and nothing
cached. -/
def freshMigrateConfig : MigrateConfig :=
  { Files := [1], Go := [], migrations := none }

/-- The error the scripted second `Migrate` call fails with. -/
def migrateFailure : GoError := .foreign "*net.OpError" 50 "connection reset by peer"

/-! ## Properties of `HandlePGError` -/

theorem statementTimeout_not_integrity (m : List (Char × String))
    (h : StatementTimeout m = true) : IntegrityViolation m = false := by
  simp only [StatementTimeout, beq_iff_eq] at h
  simp [IntegrityViolation, h]

theorem ifaceEq_nil_iff (err : GoError) :
    GoError.ifaceEq err .nil = some true ↔ err = .nil := by
  cases err <;> simp [GoError.ifaceEq]

/-- C1: every error that is not `sql.ErrNoRows` (under Go's `==`) and is not
a `pgdriver.Error` reporting an integrity violation or a statement timeout
comes back from `HandlePGError` unchanged; in particular nil gives nil, and a
`pgdriver.Error` of any other class is returned as is. -/
theorem HandlePGError_passthrough (joinAddr : Nat) :
    (∀ err : GoError,
        GoError.ifaceEq err sqlErrNoRows ≠ some true →
        (∀ m, err = .pgdriverError m →
          IntegrityViolation m = false ∧ StatementTimeout m = false) →
        HandlePGError joinAddr err = err) ∧
    HandlePGError joinAddr .nil = .nil ∧
    (∀ m, IntegrityViolation m = false → StatementTimeout m = false →
        HandlePGError joinAddr (.pgdriverError m) = .pgdriverError m) := by
  refine ⟨?_, rfl, ?_⟩
  · intro err h1 h2
    cases err with
    | pgdriverError m =>
      obtain ⟨hi, ht⟩ := h2 m rfl
      simp [HandlePGError, GoError.ifaceEq, sqlErrNoRows, errorsNew, hi, ht]
    | nil => rfl
    | errorString a s =>
      simp only [HandlePGError, GoError.ifaceEq, sqlErrNoRows, errorsNew] at h1 ⊢
      simp [h1]
    | wrapError a msg e => simp [HandlePGError, GoError.ifaceEq, sqlErrNoRows, errorsNew]
    | joinError a es => simp [HandlePGError, GoError.ifaceEq, sqlErrNoRows, errorsNew]
    | foreign t a msg => simp [HandlePGError, GoError.ifaceEq, sqlErrNoRows, errorsNew]
  · intro m hi ht
    simp [HandlePGError, GoError.ifaceEq, sqlErrNoRows, errorsNew, hi, ht]

/-- Witness of C1 at a `pgdriver.Error` with code 42601 (syntax error). -/
theorem HandlePGError_passthrough_witness :
    GoError.ifaceEq (.pgdriverError [('C', "42601")]) sqlErrNoRows ≠ some true ∧
    HandlePGError 0 (.pgdriverError [('C', "42601")]) = .pgdriverError [('C', "42601")] :=
  ⟨by decide,
   (HandlePGError_passthrough 0).1 (.pgdriverError [('C', "42601")]) (by decide)
     (by
      intro m h
      cases h
      exact ⟨by decide, by decide⟩)⟩

/-- C2 as stated fails: for a statement timeout, `errors.Is` does not match
the value `HandlePGError` returns against the original driver error, because
`pgdriver.Error` is not a comparable type. -/
theorem HandlePGError_timeout_not_is_original :
    StatementTimeout timeoutFields = true ∧
    errorsIs (HandlePGError 7 (.pgdriverError timeoutFields))
      (.pgdriverError timeoutFields) = false := by
  decide

/-- C2, amended: `HandlePGError` maps `sql.ErrNoRows` to an error matching
`ErrNotFound`, every integrity violation to an error matching
`ErrConstraintViolation`, and every statement timeout to the join of
`ErrTimeout` and the original error, which matches `ErrTimeout` and from which
`errors.As` recovers the original `pgdriver.Error`, while `errors.Is` against
the original value is false. -/
theorem HandlePGError_sentinels (joinAddr : Nat) :
    errorsIs (HandlePGError joinAddr sqlErrNoRows) ErrNotFound = true ∧
    (∀ m, IntegrityViolation m = true →
        errorsIs (HandlePGError joinAddr (.pgdriverError m)) ErrConstraintViolation = true) ∧
    (∀ m, StatementTimeout m = true →
        HandlePGError joinAddr (.pgdriverError m)
          = .joinError joinAddr [ErrTimeout, .pgdriverError m] ∧
        errorsIs (HandlePGError joinAddr (.pgdriverError m)) ErrTimeout = true ∧
        errorsAsPG (HandlePGError joinAddr (.pgdriverError m)) = some m ∧
        errorsIs (HandlePGError joinAddr (.pgdriverError m)) (.pgdriverError m) = false) := by
  refine ⟨rfl, ?_, ?_⟩
  · intro m hi
    by_cases hc : stringsContains (GoError.pgdriverError m).Error "SQLSTATE=23505" = true
    · have : HandlePGError joinAddr (.pgdriverError m) = ErrUniqConstraintViolation := by
        simp [HandlePGError, GoError.ifaceEq, sqlErrNoRows, errorsNew, hi, hc]
      rw [this]; rfl
    · have : HandlePGError joinAddr (.pgdriverError m) = ErrConstraintViolation := by
        simp [HandlePGError, GoError.ifaceEq, sqlErrNoRows, errorsNew, hi, hc]
      rw [this]; rfl
  · intro m ht
    have hi := statementTimeout_not_integrity m ht
    have : HandlePGError joinAddr (.pgdriverError m)
        = .joinError joinAddr [ErrTimeout, .pgdriverError m] := by
      simp [HandlePGError, GoError.ifaceEq, sqlErrNoRows, errorsNew, hi, ht, errorsJoin,
        ErrTimeout, GoError.isNil]
    rw [this]
    refine ⟨rfl, ?_, ?_, ?_⟩
    · simp [errorsIs, GoError.isNil, ErrTimeout, errorsNew, errorsIsLoop, errorsIsAny,
        GoError.comparable, GoError.ifaceEq]
    · simp [errorsAsPG, errorsAsPGAny, ErrTimeout, errorsNew]
    · simp [errorsIs, GoError.isNil, ErrTimeout, errorsNew, errorsIsLoop, errorsIsAny,
        GoError.comparable]

/-- Witness of C2 (amended) at a statement timeout. -/
theorem HandlePGError_sentinels_witness :
    StatementTimeout timeoutFields = true ∧
    errorsIs (HandlePGError 7 (.pgdriverError timeoutFields)) ErrTimeout = true ∧
    errorsAsPG (HandlePGError 7 (.pgdriverError timeoutFields)) = some timeoutFields :=
  ⟨by decide, ((HandlePGError_sentinels 7).2.2 timeoutFields (by decide)).2.1,
    ((HandlePGError_sentinels 7).2.2 timeoutFields (by decide)).2.2.1⟩

/-- C3 fails on the code: a check violation (code 23514, not 23505) whose
message holds the text `SQLSTATE=23505` is turned into
`ErrUniqConstraintViolation`, as the code looks for that text in the whole
rendered error rather than at the code field. -/
theorem HandlePGError_unique_on_other_code :
    IntegrityViolation checkViolationMentioningUnique = true ∧
    pgField checkViolationMentioningUnique 'C' = "23514" ∧
    HandlePGError 7 (.pgdriverError checkViolationMentioningUnique)
      = ErrUniqConstraintViolation := by
  refine ⟨by decide, by decide, ?_⟩
  rfl

/-- Part of C3 that holds: an integrity violation whose code is 23505 always
becomes `ErrUniqConstraintViolation`. -/
theorem HandlePGError_unique_of_code (joinAddr : Nat) (m : List (Char × String))
    (h : pgField m 'C' = "23505") :
    HandlePGError joinAddr (.pgdriverError m) = ErrUniqConstraintViolation := by
  have hi : IntegrityViolation m = true := by simp [IntegrityViolation, h]
  have hc : stringsContains (GoError.pgdriverError m).Error "SQLSTATE=23505" = true := by
    simp only [stringsContains, GoError.Error, pgErrorText, h, decide_eq_true_eq,
      String.data_append]
    exact ⟨(pgField m 'S').data ++ ": ".data ++ (pgField m 'M').data ++ " (".data,
      ")".data, by simp⟩
  simp [HandlePGError, GoError.ifaceEq, sqlErrNoRows, errorsNew, hi, hc]

/-! ## Properties of `Config.compileOptions` -/

/-- C6 as stated fails: with one explicit option and `DiscardUnknownColumns`
set, the derived option is the last element of the compiled list, after the
explicit option, not before it. -/
theorem compileOptions_derived_not_first :
    discardWithExplicit.compileOptions = [.other 7, .WithDiscardUnknownColumns] ∧
    discardWithExplicit.compileOptions
      ≠ DBOption.WithDiscardUnknownColumns :: discardWithExplicit.Options := by
  decide

/-- C6, amended: when `DiscardUnknownColumns` is set, every explicit option
keeps its index in the compiled list and the derived option sits at the index
after the last of them, so the derived option is applied last. -/
theorem compileOptions_derived_last {σ : Type} (config : Config σ)
    (h : config.DiscardUnknownColumns = true) :
    (∀ i, i < config.Options.length →
        config.compileOptions[i]? = config.Options[i]?) ∧
    config.compileOptions[config.Options.length]?
      = some DBOption.WithDiscardUnknownColumns ∧
    config.compileOptions.length = config.Options.length + 1 := by
  refine ⟨?_, ?_, ?_⟩
  · intro i hi
    simp [Config.compileOptions, h, List.getElem?_append_left hi]
  · simp [Config.compileOptions, h]
  · simp [Config.compileOptions, h]

/-- Witness of C6 (amended). -/
theorem compileOptions_derived_last_witness :
    discardWithExplicit.DiscardUnknownColumns = true ∧
    discardWithExplicit.compileOptions[1]? = some DBOption.WithDiscardUnknownColumns :=
  ⟨rfl, (compileOptions_derived_last discardWithExplicit rfl).2.1⟩

/-- C7: the compiled list is `Config.Options`, in order and as one block from
the start, followed by exactly one derived option when `DiscardUnknownColumns`
is true and by nothing when it is false; its length is `len(Options) + 1` or
`len(Options)`, and with the flag false it equals `Config.Options`. -/
theorem compileOptions_order_preserving {σ : Type} (config : Config σ) :
    (∃ derived : List DBOption,
        config.compileOptions = config.Options ++ derived ∧
        derived = (if config.DiscardUnknownColumns then
          [DBOption.WithDiscardUnknownColumns] else [])) ∧
    config.compileOptions.length
      = config.Options.length + (if config.DiscardUnknownColumns then 1 else 0) ∧
    (config.DiscardUnknownColumns = false → config.compileOptions = config.Options) := by
  cases hd : config.DiscardUnknownColumns <;> simp [Config.compileOptions, hd]

/-- Witness of C7 at a configuration with two explicit options and the flag
off. -/
theorem compileOptions_order_preserving_witness :
    (⟨none, none, false, false, [.other 1, .other 2]⟩ : Config Unit).compileOptions
      = [.other 1, .other 2] :=
  (compileOptions_order_preserving
    (⟨none, none, false, false, [.other 1, .other 2]⟩ : Config Unit)).2.2 rfl

/-! ## Properties of `NewClient` -/

/-- C5: with `ResetOnConn` set, a driver that connects and an `ENV` value
other than `test`, `NewClient` returns `ErrResetOnConnOutsideTests` with nil
handles; the only calls it makes outside are `Connect`, `Getenv` and the two
`Close` calls, none of them to the `migrate` package, and what
`config.Migrations` points to is left as it was. -/
theorem NewClient_reset_outside_tests {σ : Type} (L : Library σ) (steps : Nat)
    (config : Config σ) (w : World σ) (driver : DriverConfig σ) (database : DB)
    (sqlDB : SQLDB) (s : σ)
    (hdriver : config.Driver = some driver)
    (hconnect : driver.Connect config.compileOptions w.lib
      = ((some database, some sqlDB, .nil), s))
    (hreset : config.ResetOnConn = true)
    (henv : L.Getenv "ENV" s ≠ "test") :
    NewClient L steps config w
      = .done ((none, none, ErrResetOnConnOutsideTests), config.Migrations,
          { lib := L.CloseSQL sqlDB (L.CloseDB database s),
            calls := w.calls ++ [.Connect config.compileOptions, .Getenv "ENV",
              .CloseDB database, .CloseSQL sqlDB],
            nextAddr := w.nextAddr }) ∧
    ([Call.Connect config.compileOptions, .Getenv "ENV", .CloseDB database,
      .CloseSQL sqlDB].all fun c => !c.isMigrate) = true := by
  refine ⟨?_, by simp [Call.isMigrate]⟩
  simp [NewClient, hdriver, World.call, hconnect, GoError.isNil, hreset, henv, closeBoth,
    World.step, Run.bind]

/-- Witness of C5 on the stand-in, with `ENV` set to `production`. -/
theorem NewClient_reset_outside_tests_witness :
    simLibrary.Getenv "ENV" (simWorld "production" [] []).lib ≠ "test" ∧
    (NewClient simLibrary 3 resetWithoutMigrations (simWorld "production" [] [])).returned.map
      (fun r => r.1) = some (none, none, ErrResetOnConnOutsideTests) :=
  ⟨by decide,
   by
    rw [(NewClient_reset_outside_tests simLibrary 3 resetWithoutMigrations
      (simWorld "production" [] []) simDriver 1 2 (simWorld "production" [] []).lib
      rfl rfl rfl (by decide)).1]
    rfl⟩

/-- C9 fails on the code: with `Migrations` nil, `ResetOnConn` set and `ENV`
equal to `test`, `NewClient` panics on a nil pointer dereference (in
`compileMigrations`, reached through `RollbackAll`). -/
theorem NewClient_nil_migrations_reset_panics :
    resetWithoutMigrations.Migrations = none ∧
    simLibrary.Getenv "ENV" (simWorld "test" [] []).lib = "test" ∧
    NewClient simLibrary 3 resetWithoutMigrations (simWorld "test" [] []) = .nilPanic := by
  refine ⟨rfl, by decide, ?_⟩
  rfl

/-- The same for every library, driver and step bound: a nil `Migrations`
with `ResetOnConn` set in a test environment makes `NewClient` panic. -/
theorem NewClient_panics_of_nil_migrations {σ : Type} (L : Library σ)
    (steps : Nat) (config : Config σ) (w : World σ) (driver : DriverConfig σ)
    (database : Option DB) (sqlDB : Option SQLDB) (s : σ)
    (hdriver : config.Driver = some driver)
    (hconnect : driver.Connect config.compileOptions w.lib = ((database, sqlDB, .nil), s))
    (hmig : config.Migrations = none)
    (hreset : config.ResetOnConn = true)
    (henv : L.Getenv "ENV" s = "test") :
    NewClient L steps config w = .nilPanic := by
  simp [NewClient, hdriver, World.call, hconnect, GoError.isNil, hreset, henv, hmig,
    RollbackAll, compileMigrations, Run.bind]

/-- The part of C9 that holds: with `Migrations` nil and `ResetOnConn` off,
`NewClient` returns the driver's two handles and a nil error after the one
call to `Connect`. -/
theorem NewClient_nil_migrations_no_reset {σ : Type} (L : Library σ)
    (steps : Nat) (config : Config σ) (w : World σ) (driver : DriverConfig σ)
    (database : Option DB) (sqlDB : Option SQLDB) (s : σ)
    (hdriver : config.Driver = some driver)
    (hconnect : driver.Connect config.compileOptions w.lib = ((database, sqlDB, .nil), s))
    (hmig : config.Migrations = none)
    (hreset : config.ResetOnConn = false) :
    NewClient L steps config w
      = .done ((database, sqlDB, .nil), none,
          { lib := s, calls := w.calls ++ [.Connect config.compileOptions],
            nextAddr := w.nextAddr }) := by
  simp [NewClient, hdriver, World.call, hconnect, GoError.isNil, hreset, hmig,
    applyMigrations]

/-! ## Properties of `Report` -/

/-- C8 fails on the code.  First run: `Execute` is never called, one
`Rollback` succeeds, and `Report` returns the group rolled back, not nil.
Second run: `Execute` succeeds and caches its group, a second `Execute` fails
in `Migrate`, and `Report` still returns the group of the first, not nil. -/
theorem Report_not_nil_without_successful_Execute :
    outcome (Rollback simLibrary (some freshMigrateConfig) (some 1) []
        (simWorld "test" [sampleGroup 1 "init"] []))
      = some (true, some (some (sampleGroup 1 "init"))) ∧
    outcome (Execute simLibrary (some freshMigrateConfig) (some 1)
        (simWorld "test" [] [(some (sampleGroup 1 "init"), .nil), (none, migrateFailure)]))
      = some (true, some (some (sampleGroup 1 "init"))) ∧
    outcome ((Execute simLibrary (some freshMigrateConfig) (some 1)
        (simWorld "test" [] [(some (sampleGroup 1 "init"), .nil), (none, migrateFailure)])).bind
          fun r => Execute simLibrary r.2.1 (some 1) r.2.2)
      = some (false, some (some (sampleGroup 1 "init"))) := by
  decide

/-! ## Termination of `RollbackAll` -/

/-- The loop of `RollbackAll` stops at once on a group without migrations. -/
theorem rollbackLoop_of_empty {σ : Type} (L : Library σ) (opts : List MigrationOption)
    (steps : Nat) (group : MigrationGroup) (err : GoError) (w : World σ)
    (h : group.Migrations = []) :
    rollbackLoop L opts steps (some group) err w = .done (some group, err, w) := by
  cases steps <;> simp [rollbackLoop, h]

/-- The loop of `RollbackAll`, entered with a non-empty group while the
applied groups `gs` are all non-empty, calls `Rollback` once per applied group
and once more, and stops on an empty group with nothing applied. -/
theorem rollbackLoop_drains {σ : Type} (L : Library σ) (opts : List MigrationOption)
    (groups : σ → List MigrationGroup)
    (hpop : ∀ s g rest, groups s = g :: rest →
      (L.Rollback opts s).1 = (some g, .nil) ∧ groups (L.Rollback opts s).2 = rest)
    (hempty : ∀ s, groups s = [] →
      ∃ g, (L.Rollback opts s).1 = (some g, .nil) ∧ g.Migrations = [] ∧
        groups (L.Rollback opts s).2 = []) :
    ∀ (gs : List MigrationGroup) (steps : Nat) (group : MigrationGroup) (w : World σ),
      groups w.lib = gs → (∀ g ∈ gs, g.Migrations ≠ []) → group.Migrations ≠ [] →
      gs.length < steps →
      ∃ final wf, rollbackLoop L opts steps (some group) .nil w = .done (some final, .nil, wf) ∧
        final.Migrations = [] ∧ groups wf.lib = [] ∧
        wf.calls = w.calls ++ List.replicate (gs.length + 1) (.Rollback opts) ∧
        wf.nextAddr = w.nextAddr := by
  intro gs
  induction gs with
  | nil =>
    intro steps group w hw _ hgroup hsteps
    obtain ⟨k, rfl⟩ : ∃ k, steps = k + 1 := ⟨steps - 1, by omega⟩
    obtain ⟨g0, hr, hg0, hs⟩ := hempty w.lib hw
    have hlen : 0 < group.Migrations.length := List.length_pos.mpr hgroup
    refine ⟨g0, (w.call (.Rollback opts) (L.Rollback opts)).2, ?_, hg0, hs, ?_, rfl⟩
    · simp only [rollbackLoop, World.call, hr, gt_iff_lt, hlen, decide_True, GoError.isNil,
        Bool.and_self, if_true]
      exact rollbackLoop_of_empty L opts k g0 .nil _ hg0
    · simp [World.call]
  | cons g1 rest ih =>
    intro steps group w hw hne hgroup hsteps
    obtain ⟨k, rfl⟩ : ∃ k, steps = k + 1 := ⟨steps - 1, by omega⟩
    obtain ⟨hr, hs⟩ := hpop w.lib g1 rest hw
    have hlen : 0 < group.Migrations.length := List.length_pos.mpr hgroup
    obtain ⟨final, wf, hloop, hfinal, hgroups, hcalls, haddr⟩ :=
      ih k g1 (w.call (.Rollback opts) (L.Rollback opts)).2 hs
        (fun g hg => hne g (List.mem_cons_of_mem _ hg)) (hne g1 (List.mem_cons_self _ _))
        (by simp only [List.length_cons] at hsteps; omega)
    refine ⟨final, wf, ?_, hfinal, hgroups, ?_, ?_⟩
    · simp only [rollbackLoop, World.call, hr, gt_iff_lt, hlen, decide_True, GoError.isNil,
        Bool.and_self, if_true]
      exact hloop
    · rw [hcalls]
      simp [World.call, List.replicate_succ]
    · rw [haddr]
      rfl

/-- C4: when `compileMigrations` and `Init` succeed and leave `n` applied
groups, all non-empty, and every `Rollback` call succeeds, removing and
returning the last applied group, or returning an empty group once none is
left, `RollbackAll` (given at least `n` loop steps) returns nil after exactly
`n + 1` calls to `Rollback`, leaves no applied group, and caches the final,
empty group, which `Report` then returns. -/
theorem RollbackAll_terminates {σ : Type} (L : Library σ) (opts : List MigrationOption)
    (groups : σ → List MigrationGroup) (steps n : Nat) (c : MigrateConfig) (db : Option DB)
    (w w1 : World σ) (s2 : σ)
    (hcompile : compileMigrations L (some c) w = .done (.nil, w1))
    (hinit : L.Init (L.NewMigrator db w1.lib) = (.nil, s2))
    (hpop : ∀ s g rest, groups s = g :: rest →
      (L.Rollback opts s).1 = (some g, .nil) ∧ groups (L.Rollback opts s).2 = rest)
    (hempty : ∀ s, groups s = [] →
      ∃ g, (L.Rollback opts s).1 = (some g, .nil) ∧ g.Migrations = [] ∧
        groups (L.Rollback opts s).2 = [])
    (hn : (groups s2).length = n)
    (hne : ∀ g ∈ groups s2, g.Migrations ≠ [])
    (hsteps : n ≤ steps) :
    ∃ final wf,
      RollbackAll L steps (some c) db opts w
        = .done (.nil, some { c with migrations := some final }, wf) ∧
      final.Migrations = [] ∧
      Report { c with migrations := some final } = some final ∧
      groups wf.lib = [] ∧
      wf.calls = w1.calls ++ [.NewMigrator db, .Init]
        ++ List.replicate (n + 1) (.Rollback opts) := by
  have hstart : RollbackAll L steps (some c) db opts w
      = (rollbackLoop L opts steps (L.Rollback opts s2).1.1 (L.Rollback opts s2).1.2
          { lib := (L.Rollback opts s2).2,
            calls := w1.calls ++ [.NewMigrator db, .Init, .Rollback opts],
            nextAddr := w1.nextAddr }).bind fun l =>
          if !l.2.1.isNil then
            let e := l.2.2.errorf "failed to rollback migrations: " l.2.1
            .done (e.1, some c, e.2)
          else
            (setMigrations (some c) l.1).bind fun config => .done (.nil, config, l.2.2) := by
    simp [RollbackAll, hcompile, Run.bind, GoError.isNil, World.step, World.call, hinit]
  rw [hstart]
  cases hgs : groups s2 with
  | nil =>
    obtain ⟨g0, hr, hg0, hs⟩ := hempty s2 hgs
    have hn0 : n = 0 := by rw [← hn, hgs]; rfl
    subst hn0
    refine ⟨g0, World.mk (L.Rollback opts s2).2
      (w1.calls ++ [.NewMigrator db, .Init, .Rollback opts]) w1.nextAddr,
      ?_, hg0, rfl, hs, ?_⟩
    · rw [hr]
      simp only [rollbackLoop_of_empty L opts steps g0 .nil _ hg0, Run.bind, GoError.isNil,
        setMigrations]
      rfl
    · simp
  | cons g1 rest =>
    obtain ⟨hr, hs⟩ := hpop s2 g1 rest hgs
    have hlen : rest.length + 1 = n := by rw [← hn, hgs]; rfl
    obtain ⟨final, wf, hloop, hfinal, hgroups, hcalls, _⟩ :=
      rollbackLoop_drains L opts groups hpop hempty rest steps g1
        { lib := (L.Rollback opts s2).2,
          calls := w1.calls ++ [.NewMigrator db, .Init, .Rollback opts],
          nextAddr := w1.nextAddr } hs
        (fun g hg => hne g (by rw [hgs]; exact List.mem_cons_of_mem _ hg))
        (hne g1 (by rw [hgs]; exact List.mem_cons_self _ _)) (by omega)
    refine ⟨final, wf, ?_, hfinal, rfl, hgroups, ?_⟩
    · rw [hr]
      simp only [hloop, Run.bind, GoError.isNil, setMigrations]
      rfl
    · rw [hcalls, ← hlen]
      simp [List.replicate_succ]

/-- Witness of C4 on the stand-in with two applied groups and two loop
steps. -/
theorem RollbackAll_terminates_witness :
    ∃ final wf,
      RollbackAll simLibrary 2 (some freshMigrateConfig) (some 1) []
          (simWorld "test" [sampleGroup 2 "second", sampleGroup 1 "first"] [])
        = .done (.nil, some { freshMigrateConfig with migrations := some final }, wf) ∧
      final.Migrations = [] ∧
      Report { freshMigrateConfig with migrations := some final } = some final ∧
      wf.lib.applied = [] ∧
      wf.calls = [.NewMigrations, .Discover 1] ++ [.NewMigrator (some 1), .Init]
        ++ List.replicate (2 + 1) (.Rollback []) :=
  RollbackAll_terminates simLibrary [] SimState.applied 2 2 freshMigrateConfig (some 1)
    (simWorld "test" [sampleGroup 2 "second", sampleGroup 1 "first"] [])
    { (simWorld "test" [sampleGroup 2 "second", sampleGroup 1 "first"] []) with
      calls := [.NewMigrations, .Discover 1] }
    (simWorld "test" [sampleGroup 2 "second", sampleGroup 1 "first"] []).lib
    rfl rfl
    (by
      intro s g rest h
      simp [simLibrary, h])
    (by
      intro s h
      exact ⟨⟨0, []⟩, by simp [simLibrary, h]⟩)
    rfl
    (by
      intro g hg
      simp [simWorld, sampleGroup] at hg
      rcases hg with rfl | rfl <;> simp)
    (Nat.le_refl 2)

end Bunovel
